import Mathlib

/-!
Verification of the deep_lom backend's lobby and test-attempt subsystems.

The definitions below are a shallow embedding of the Python source:
  - backend/app/api/v1/endpoints/student.py  (begin / submit answer / finalize)
  - backend/app/api/v1/endpoints/tests.py    (alternate submit path, multiple-choice branch)
  - backend/app/services/websocket_manager.py (lobby manager)
  - backend/app/tasks/grading_tasks.py       (asynchronous batch grading)
  - backend/app/models/test.py               (Test / Question / Answer rows)

Conventions: database ids (UUIDs) are modelled as naturals; timestamps as
natural-number ticks; SQL/JSON floats as rationals (all scores written by the
embedded paths are sums of integer point values, for which the Python float
comparisons used by the code agree with exact rational arithmetic); nullable
columns as Option.  Raising an HTTPException before any mutation is modelled
by returning an error that carries no state, so an error result means the
database is unchanged.
-/

namespace DeepLom

/-- Python/JSON values as they occur in answer and correct-answer payloads.
The stored payloads for the auto-graded question kinds are primitives or
lists of primitives (single-choice: int index; multiple-choice: list of
ints; true-false: bool), so list elements are restricted to primitives. -/
inductive PyPrim where
  | none
  | bool (b : Bool)
  | int (n : Int)
  | str (s : String)
deriving Repr, DecidableEq

inductive PyVal where
  | prim (p : PyPrim)
  | list (xs : List PyPrim)
deriving Repr, DecidableEq

def pyNoneV : PyVal := .prim .none

/-- Python truthiness of a primitive: None, False, 0 and "" are falsy. -/
def PyPrim.truthy : PyPrim → Bool
  | .none => false
  | .bool b => b
  | .int n => n != 0
  | .str s => !s.isEmpty

/-- Python `repr` of a primitive.  String repr is modelled for strings that
contain no quote, backslash or control characters (single-quote wrapping),
which covers every payload the claims touch. -/
def PyPrim.pyRepr : PyPrim → String
  | .none => "None"
  | .bool true => "True"
  | .bool false => "False"
  | .int n => toString n
  | .str s => String.singleton (Char.ofNat 39) ++ s ++ String.singleton (Char.ofNat 39)

/-- Python `str()` of a primitive (strings print without quotes). -/
def PyPrim.pyStr : PyPrim → String
  | .str s => s
  | p => p.pyRepr

/-- Python `str()` of a value; `str` of a list joins the `repr` of its
elements inside brackets, as CPython does. -/
def PyVal.pyStr : PyVal → String
  | .prim p => p.pyStr
  | .list xs => "[" ++ String.intercalate ", " (xs.map PyPrim.pyRepr) ++ "]"

/-- Python `==` on primitives: bools compare equal to ints by value
(True == 1); numeric values never equal strings; None equals only None. -/
def PyPrim.numVal : PyPrim → Option Int
  | .bool b => some (if b then 1 else 0)
  | .int n => some n
  | _ => Option.none

def pyEq (a b : PyPrim) : Bool :=
  match a.numVal, b.numVal with
  | some x, some y => x == y
  | _, _ =>
    match a, b with
    | .none, .none => true
    | .str s, .str t => s == t
    | _, _ => false

/-- Membership under Python equality (models `x in someSet`). -/
def pyMem (x : PyPrim) (xs : List PyPrim) : Bool := xs.any (fun y => pyEq x y)

/-- Deduplicate under Python equality (models building a Python `set`). -/
def pySetOf : List PyPrim → List PyPrim
  | [] => []
  | x :: xs => if pyMem x xs then pySetOf xs else x :: pySetOf xs

/-- Python `set == set`: extensional equality. -/
def pySetEq (xs ys : List PyPrim) : Bool :=
  xs.all (fun x => pyMem x ys) && ys.all (fun y => pyMem y xs)

/-- Size of the intersection of two already-deduplicated element lists
(models `len(a & b)` on Python sets). -/
def pyInterCard (xs ys : List PyPrim) : Nat :=
  (xs.filter (fun x => pyMem x ys)).length

/-- Python `str.lower()` restricted to ASCII letters; every token the
embedded code lowercases (truthy tokens, status strings, emails) is
ASCII.  Written with explicit character arithmetic so concrete instances
reduce inside the kernel. -/
def asciiLowerChar (c : Char) : Char :=
  if 65 ≤ c.toNat ∧ c.toNat ≤ 90 then Char.ofNat (c.toNat + 32) else c

def asciiLower (s : String) : String := String.mk (s.data.map asciiLowerChar)

/-- Python `str.isdigit()` restricted to ASCII, true on nonempty all-digit
strings; the only digit strings the endpoints see are decimal indices. -/
def isDigitStr (s : String) : Bool := !s.isEmpty && s.all Char.isDigit

/-- Value of a nonempty decimal digit string (Python `int(s)` on an
`isdigit` string). -/
def digitsToNat (s : String) : Nat :=
  s.foldl (fun n c => 10 * n + (c.toNat - 48)) 0

/-! ## Data model (backend/app/models/test.py, project.py) -/

/-- A row of the `questions` table.  `correctAnswer` is the JSON column
whose shape depends on the question type.  Point values are the
non-negative integers the generator writes (`points: int, default 1`). -/
structure Question where
  id : Nat
  projectId : Nat
  variantNumber : Nat
  questionType : String
  text : String
  points : Nat
  correctAnswer : PyVal
  order : Nat
deriving Repr, DecidableEq

/-- A row of the `answers` table.  `gradingStatus` and `gradedBy` are the
columns added by migration 007; the ORM model in models/test.py does not
declare them and the API insert path never sets them, so records created
by the endpoints carry `none` there until a grading task assigns them. -/
structure AnswerRec where
  id : Nat
  testId : Nat
  questionId : Nat
  answer : PyVal
  isCorrect : Option Bool
  score : Option ℚ
  feedback : Option String
  gradingStatus : Option String
  gradedBy : Option String
deriving Repr, DecidableEq

/-- A row of the `tests` table (one student attempt). -/
structure Test where
  id : Nat
  projectId : Nat
  studentId : Nat
  variantNumber : Nat
  status : String
  score : Option ℚ
  maxScore : ℚ
  startedAt : Option Nat
  completedAt : Option Nat
deriving Repr, DecidableEq

/-- The slice of a `projects` row that the begin endpoint reads.  The code
only ever uses `project.allowed_students or []`, so a NULL column is
modelled by the empty list. -/
structure Project where
  id : Nat
  status : String
  startTime : Option Nat
  endTime : Option Nat
  allowedStudents : List String
deriving Repr, DecidableEq

/-- The authenticated student: primary email plus the extra `StudentEmail`
rows attached to the account. -/
structure Student where
  id : Nat
  email : String
  extraEmails : List String
deriving Repr, DecidableEq

/-- The database state the embedded endpoints read and write. -/
structure DB where
  projects : List Project
  tests : List Test
  questions : List Question
  answers : List AnswerRec
deriving Repr, DecidableEq

/-- Errors raised as HTTPException by the endpoints, keyed by status class
and the detail string the code uses. -/
inductive ApiError where
  | notFound (detail : String)
  | badRequest (detail : String)
  | forbidden (detail : String)
deriving Repr, DecidableEq

/-! ## Answer grading, student submit path
(student.py, submit_test, grading loop) -/

/-- The single-choice conversion: `isinstance(x, int)` (which in Python is
also true of bools) takes the value itself; a digit string is parsed;
anything else converts to `None`. -/
def scInt : PyVal → Option Int
  | .prim (.bool b) => some (if b then 1 else 0)
  | .prim (.int n) => some n
  | .prim (.str s) => if isDigitStr s then some (digitsToNat s) else Option.none
  | _ => Option.none

/-- True-false normalization: membership of the lowercased string form in
the truthy token list used by the code. -/
def truthyTok (s : String) : Bool := s == "true" || s == "1" || s == "yes"

/-- Elements of a value when it is a list (`isinstance(x, list)`), else the
empty list, as both multiple-choice branches normalize. -/
def asListPy : PyVal → List PyPrim
  | .list xs => xs
  | _ => []

/-- String-set equality used by the student-path multiple-choice branch
(`set(str(x) for x in ...)` compared with `==`). -/
def strSetEq (xs ys : List String) : Bool :=
  xs.all (fun s => ys.contains s) && ys.all (fun s => xs.contains s)

/-- Grading of one answer in the student submit path (student.py,
submit_test): branches on the question type in source order; the three
open-ended kinds and unknown kinds fall to the final branch which leaves
`is_correct = False, score = 0`.  Returns (isCorrect, score). -/
def gradeStudentAnswer (q : Question) (v : PyVal) : Bool × ℚ :=
  if q.questionType == "single-choice" then
    let c := scInt q.correctAnswer
    let s := scInt v
    let isC :=
      match c, s with
      | some ci, some si => si == ci
      | _, _ => v.pyStr == q.correctAnswer.pyStr
    (isC, if isC then (q.points : ℚ) else 0)
  else if q.questionType == "true-false" then
    let isC := truthyTok (asciiLower v.pyStr) == truthyTok (asciiLower q.correctAnswer.pyStr)
    (isC, if isC then (q.points : ℚ) else 0)
  else if q.questionType == "multiple-choice" then
    let cs := (asListPy q.correctAnswer).map PyPrim.pyStr
    let ss := (asListPy v).map PyPrim.pyStr
    let isC := strSetEq cs ss
    (isC, if isC then (q.points : ℚ) else 0)
  else
    (false, 0)

/-! ## Answer grading, tests submit path: multiple-choice branch
(tests.py, submit_test).  Here sides are compared as raw value sets and a
partially overlapping answer receives proportional credit. -/

/-- Multiple-choice grading in the tests submit path.  `x or []` on the
JSON column yields the stored list (None and the empty list both give the
empty set; multiple-choice stores a list of ints per the data model). -/
def gradeTestsMC (points : Nat) (correctAnswer studentAnswer : PyVal) : Bool × ℚ :=
  let cSet := pySetOf (asListPy correctAnswer)
  let aSet := pySetOf (asListPy studentAnswer)
  let isC := pySetEq cSet aSet
  let score : ℚ :=
    if isC then (points : ℚ)
    else if pyInterCard aSet cSet != 0 then
      (points : ℚ) * (pyInterCard aSet cSet : ℚ) / (cSet.length : ℚ)
    else 0
  (isC, score)

/-! ## Finalize (student.py, submit_test) -/

/-- The question rows of the attempt's assigned variant (the query filters
on the test's project and variant number). -/
def variantQuestions (db : DB) (t : Test) : List Question :=
  db.questions.filter (fun q => q.projectId == t.projectId && q.variantNumber == t.variantNumber)

/-- The dict comprehension keyed by question id: a later row with the same
id overrides an earlier one, so keep the last occurrence of each id. -/
def dedupById : List Question → List Question
  | [] => []
  | q :: rest => if rest.any (fun r => r.id == q.id) then dedupById rest else q :: dedupById rest

/-- Lookup of a question by id in the variant dict (`questions.get`). -/
def lookupQ (qs : List Question) (qid : Nat) : Option Question :=
  qs.find? (fun q => q.id == qid)

/-- Sum of the point values of a question list, as the finalize path
recomputes `max_score` (`sum(q.points for q in questions.values())`). -/
def sumPoints (qs : List Question) : ℚ :=
  (qs.map (fun q => (q.points : ℚ))).sum

/-- One iteration of the finalize grading loop: an answer whose question id
is not in the variant dict is skipped (`continue`) and left untouched;
otherwise the record's isCorrect and score are set and the running total
and correct count receive this answer's contribution.
Returns (updated record, score contribution, correct-count contribution). -/
def gradeOne (qs : List Question) (a : AnswerRec) : AnswerRec × ℚ × Nat :=
  match lookupQ qs a.questionId with
  | Option.none => (a, 0, 0)
  | some q =>
    let r := gradeStudentAnswer q a.answer
    ({ a with isCorrect := some r.1, score := some r.2 }, r.2, if r.1 then 1 else 0)

/-- Output of the finalize grading loop. -/
structure GradeLoopOut where
  records : List AnswerRec
  totalScore : ℚ
  correctCount : Nat
deriving Repr, DecidableEq

/-- The finalize grading loop over the attempt's answer rows. -/
def gradeAnswers (qs : List Question) : List AnswerRec → GradeLoopOut
  | [] => ⟨[], 0, 0⟩
  | a :: rest =>
    let h := gradeOne qs a
    let r := gradeAnswers qs rest
    ⟨h.1 :: r.records, h.2.1 + r.totalScore, h.2.2 + r.correctCount⟩

/-- The response body of the finalize endpoint. -/
structure SubmitOutcome where
  testId : Nat
  score : ℚ
  maxScore : ℚ
  correctAnswers : Nat
  totalQuestions : Nat
  passed : Bool
deriving Repr, DecidableEq

/-- The test row selected by (id, student_id) (`scalar_one_or_none`; the
first match of the unique key). -/
def findTestFor (db : DB) (testId studentId : Nat) : Option Test :=
  db.tests.find? (fun t => t.id == testId && t.studentId == studentId)

/-- Finalize (student.py, submit_test): re-finalizing a completed attempt
fails before any write; otherwise every answer row of the attempt is run
through the grading loop against the variant's question dict, `max_score`
is recomputed from the variant, the test row becomes completed with the
summed score, and the summary is returned.  `passed` compares the integer
score sum against 60% of the recomputed maximum; on the integer-valued
sums produced here the Python float comparison `score >= max * 0.6` agrees
with the exact rational comparison used below. -/
def submitTest (db : DB) (testId studentId now : Nat) :
    Except ApiError (DB × SubmitOutcome) :=
  match findTestFor db testId studentId with
  | Option.none => .error (.notFound "Test not found")
  | some t =>
    if t.status == "completed" then
      .error (.badRequest "Test already completed")
    else
      let qs := dedupById (variantQuestions db t)
      let myAnswers := db.answers.filter (fun a => a.testId == testId)
      let loop := gradeAnswers qs myAnswers
      let correctMax := sumPoints qs
      let t2 := { t with status := "completed", completedAt := some now,
                         score := some loop.totalScore, maxScore := correctMax }
      let db2 : DB := { db with
        tests := db.tests.map (fun u => if u.id == t.id then t2 else u),
        answers := db.answers.map (fun a =>
          if a.testId == testId then (gradeOne qs a).1 else a) }
      let passed := if 0 < correctMax then decide (3 / 5 * correctMax ≤ loop.totalScore) else false
      .ok (db2,
        { testId := t.id, score := loop.totalScore, maxScore := correctMax,
          correctAnswers := loop.correctCount, totalQuestions := qs.length,
          passed := passed })

/-! ## Submit answer (student.py, submit_answer) -/

/-- Submit answer: requires an in-progress attempt owned by the student; a
missing questionId is rejected; the question is looked up by id alone with
no project or variant filter; then the (test, question) answer row is
upserted.  `newId` stands for the fresh row id the database would mint. -/
def submitAnswer (db : DB) (testId studentId : Nat) (questionId : Option Nat)
    (value : PyVal) (newId : Nat) : Except ApiError (DB × (Nat × PyVal)) :=
  match db.tests.find? (fun t =>
      t.id == testId && t.studentId == studentId && t.status == "in-progress") with
  | Option.none => .error (.notFound "Test not found or already completed")
  | some _ =>
    match questionId with
    | Option.none => .error (.badRequest "questionId is required")
    | some qid =>
      match db.questions.find? (fun q => q.id == qid) with
      | Option.none => .error (.notFound "Question not found")
      | some _ =>
        match db.answers.find? (fun a => a.testId == testId && a.questionId == qid) with
        | some a =>
          let a2 := { a with answer := value }
          .ok ({ db with answers := db.answers.map (fun x => if x.id == a.id then a2 else x) },
               (qid, value))
        | Option.none =>
          let a2 : AnswerRec :=
            { id := newId, testId := testId, questionId := qid, answer := value,
              isCorrect := Option.none, score := Option.none, feedback := Option.none,
              gradingStatus := Option.none, gradedBy := Option.none }
          .ok ({ db with answers := db.answers ++ [a2] }, (qid, value))

/-! ## Begin (student.py, start_test_for_student) -/

/-- The payload the begin endpoint returns (attempt fields plus the
variant's question rows in display order). -/
structure BeginOutcome where
  id : Nat
  projectId : Nat
  status : String
  startedAt : Option Nat
  maxScore : ℚ
  variantNumber : Nat
  questions : List Question
deriving Repr, DecidableEq

/-- Allow-list check: the student's primary and extra emails, lowercased,
against the project's lowercased allowed list. -/
def emailAllowed (project : Project) (user : Student) : Bool :=
  let studentEmails := asciiLower user.email :: user.extraEmails.map asciiLower
  let allowed := project.allowedStudents.map asciiLower
  studentEmails.any (fun e => allowed.contains e)

/-- Access-window check of the begin endpoint: an `active` project only
checks that the end time has not passed; a `ready` project checks the
scheduled window (start first, then end); any other status is rejected. -/
def accessWindowError (project : Project) (now : Nat) : Option ApiError :=
  if project.status == "active" then
    match project.endTime with
    | some e => if e < now then some (.badRequest "This test has ended") else Option.none
    | Option.none => Option.none
  else if project.status == "ready" then
    if (match project.startTime with | some s => decide (now < s) | Option.none => false) then
      some (.badRequest "This test has not started yet")
    else if (match project.endTime with | some e => decide (e < now) | Option.none => false) then
      some (.badRequest "This test has ended")
    else Option.none
  else some (.badRequest "This test is not currently available")

/-- Stable insertion into a list ascending in the `order` column. -/
def insertOrdered (q : Question) : List Question → List Question
  | [] => [q]
  | r :: rest => if r.order ≤ q.order then r :: insertOrdered q rest else q :: r :: rest

/-- Stable sort by the `order` column, modelling the SQL `ORDER BY`. -/
def sortByOrder : List Question → List Question
  | [] => []
  | q :: rest => insertOrdered q (sortByOrder rest)

/-- The variant's questions ordered by the `order` column. -/
def orderedVariantQuestions (db : DB) (projectId variant : Nat) : List Question :=
  sortByOrder (db.questions.filter (fun q => q.projectId == projectId && q.variantNumber == variant))

/-- The distinct variant numbers that have at least one question row. -/
def availableVariants (db : DB) (projectId : Nat) : List Nat :=
  ((db.questions.filter (fun q => q.projectId == projectId)).map
    (fun q => q.variantNumber)).dedup

/-- The variant-assignment tail of the begin endpoint, reached when no
attempt row blocks it: pick a variant (`random.choice`, modelled by the
index `pick` into the distinct-variant list), reject projects without
questions, compute the variant's maximum score and insert a fresh
in-progress attempt row. -/
def createNewAttempt (db : DB) (projectId : Nat) (user : Student)
    (now pick newTestId : Nat) : Except ApiError (DB × BeginOutcome) :=
  let variants := availableVariants db projectId
  if variants.isEmpty then
    .error (.badRequest "This test has no questions yet")
  else
    let assigned := variants.getD (pick % variants.length) 0
    let qs := orderedVariantQuestions db projectId assigned
    if qs.isEmpty then
      .error (.badRequest "This test has no questions yet")
    else
      let maxScore := sumPoints qs
      let newTest : Test :=
        { id := newTestId, projectId := projectId, studentId := user.id,
          variantNumber := assigned, status := "in-progress", score := some 0,
          maxScore := maxScore, startedAt := some now, completedAt := Option.none }
      .ok ({ db with tests := db.tests ++ [newTest] },
        { id := newTestId, projectId := projectId, status := "in-progress",
          startedAt := some now, maxScore := maxScore, variantNumber := assigned,
          questions := qs })

/-- Begin (student.py, start_test_for_student): after the project, allow
list and access-window guards, an existing attempt row for the (project,
student) pair is consulted: a completed one fails, an in-progress one is
returned unchanged with its variant's questions, and any other status
(graded, pending) falls through to the creation tail, as does the absence
of a row. -/
def startTestForStudent (db : DB) (projectId : Nat) (user : Student)
    (now pick newTestId : Nat) : Except ApiError (DB × BeginOutcome) :=
  match db.projects.find? (fun p => p.id == projectId) with
  | Option.none => .error (.notFound "Project not found")
  | some project =>
    if !emailAllowed project user then
      .error (.forbidden "You are not allowed to take this test")
    else
      match accessWindowError project now with
      | some e => .error e
      | Option.none =>
        match db.tests.find? (fun t => t.projectId == projectId && t.studentId == user.id) with
        | some existing =>
          if existing.status == "completed" then
            .error (.badRequest "You have already completed this test")
          else if existing.status == "in-progress" then
            .ok (db,
              { id := existing.id, projectId := projectId, status := existing.status,
                startedAt := existing.startedAt, maxScore := existing.maxScore,
                variantNumber := existing.variantNumber,
                questions := orderedVariantQuestions db projectId existing.variantNumber })
          else
            createNewAttempt db projectId user now pick newTestId
        | Option.none =>
          createNewAttempt db projectId user now pick newTestId

/-! ## Lobby manager (services/websocket_manager.py)
Connections are I/O objects; the state the claims are about is the
presence map and the lobby status, so only those are embedded.  The
`students` dict is an association list whose insert replaces an existing
key, as a Python dict assignment does. -/

structure LobbyStudent where
  userId : String
  firstName : String
  lastName : String
  email : String
  status : String
deriving Repr, DecidableEq

structure Lobby where
  projectId : String
  maxStudents : Nat
  status : String
  students : List (String × LobbyStudent)
deriving Repr, DecidableEq

def Lobby.studentCount (l : Lobby) : Nat := l.students.length

/-- The `is_full` property: `student_count >= max_students`. -/
def Lobby.isFull (l : Lobby) : Bool := l.maxStudents ≤ l.studentCount

/-- The manager's project-to-lobby dict. -/
abbrev LobbyManager := List (String × Lobby)

def getLobby (m : LobbyManager) (pid : String) : Option Lobby :=
  (List.find? (fun p => p.1 == pid) m).map (fun p => p.2)

/-- Replace the lobby stored under an existing key. -/
def setLobby (m : LobbyManager) (pid : String) (l : Lobby) : LobbyManager :=
  List.map (fun p => if p.1 == pid then (pid, l) else p) m

/-- Python dict assignment `d[k] = v`: replace the entry when the key is
present, append otherwise. -/
def dictInsert (xs : List (String × LobbyStudent)) (k : String) (v : LobbyStudent) :
    List (String × LobbyStudent) :=
  if xs.any (fun p => p.1 == k) then
    xs.map (fun p => if p.1 == k then (k, v) else p)
  else xs ++ [(k, v)]

/-- Python `d.pop(k, None)`. -/
def dictRemove (xs : List (String × LobbyStudent)) (k : String) :
    List (String × LobbyStudent) :=
  xs.filter (fun p => p.1 != k)

inductive ConnectOutcome where
  | lobbyNotFound
  | lobbyFull
  | lobbyClosed
  | joined
deriving Repr, DecidableEq

/-- connect_student: reject when the lobby is missing, full
(`is_full`, i.e. count already at or above capacity) or no longer
waiting; otherwise record the presence (with the dataclass default
readiness "waiting") and the connection.  Rejections close the socket and
change no lobby state. -/
def connectStudent (m : LobbyManager) (pid uid firstName lastName email : String) :
    LobbyManager × ConnectOutcome :=
  match getLobby m pid with
  | Option.none => (m, .lobbyNotFound)
  | some l =>
    if l.isFull then (m, .lobbyFull)
    else if l.status != "waiting" then (m, .lobbyClosed)
    else
      let s : LobbyStudent :=
        { userId := uid, firstName := firstName, lastName := lastName,
          email := email, status := "waiting" }
      (setLobby m pid { l with students := dictInsert l.students uid s }, .joined)

/-- disconnect_student: drop the presence and connection; a missing lobby
or user is a no-op. -/
def disconnectStudent (m : LobbyManager) (pid uid : String) : LobbyManager :=
  match getLobby m pid with
  | Option.none => m
  | some l => setLobby m pid { l with students := dictRemove l.students uid }

/-- set_student_ready: mutate the presence's readiness; no-op when the
lobby or user is unknown. -/
def setStudentReady (m : LobbyManager) (pid uid : String) (isReady : Bool) : LobbyManager :=
  match getLobby m pid with
  | Option.none => m
  | some l =>
    if l.students.any (fun p => p.1 == uid) then
      setLobby m pid { l with students := l.students.map (fun p =>
        if p.1 == uid then (p.1, { p.2 with status := if isReady then "ready" else "waiting" })
        else p) }
    else m

/-- start_test: returns False and changes nothing when the lobby is
missing; otherwise sets the status to "active" unconditionally and
returns True. -/
def startTest (m : LobbyManager) (pid : String) : LobbyManager × Bool :=
  match getLobby m pid with
  | Option.none => (m, false)
  | some l => (setLobby m pid { l with status := "active" }, true)

/-- connect_teacher / get_or_create_lobby: create a fresh waiting lobby
with the requested capacity on first connect; an existing lobby keeps its
capacity and students (only the teacher connection object, not modelled
here, is replaced). -/
def connectTeacher (m : LobbyManager) (pid : String) (maxStudents : Nat) : LobbyManager :=
  if List.any m (fun p => p.1 == pid) then m
  else m ++ [(pid, { projectId := pid, maxStudents := maxStudents,
                     status := "waiting", students := [] })]

/-- close_lobby: pop the lobby from the registry (connections are closed
as I/O). -/
def closeLobby (m : LobbyManager) (pid : String) : LobbyManager :=
  List.filter (fun p => p.1 != pid) m

/-- complete_test: set the status to "completed" (the delayed close that
follows is a separate closeLobby step). -/
def completeTest (m : LobbyManager) (pid : String) : LobbyManager :=
  match getLobby m pid with
  | Option.none => m
  | some l => setLobby m pid { l with status := "completed" }

/-- The lobby operations a message sequence can perform. -/
inductive LobbyOp where
  | teacherConnect (pid : String) (cap : Nat)
  | studentConnect (pid uid firstName lastName email : String)
  | studentDisconnect (pid uid : String)
  | ready (pid uid : String) (r : Bool)
  | start (pid : String)
  | markComplete (pid : String)
  | close (pid : String)
deriving Repr, DecidableEq

def applyOp (m : LobbyManager) : LobbyOp → LobbyManager
  | .teacherConnect pid cap => connectTeacher m pid cap
  | .studentConnect pid uid f l e => (connectStudent m pid uid f l e).1
  | .studentDisconnect pid uid => disconnectStudent m pid uid
  | .ready pid uid r => setStudentReady m pid uid r
  | .start pid => (startTest m pid).1
  | .markComplete pid => completeTest m pid
  | .close pid => closeLobby m pid

/-- The capacity invariant: every registered lobby holds at most its
capacity of students. -/
def capOk (m : LobbyManager) : Prop :=
  ∀ p ∈ m, (p : String × Lobby).2.studentCount ≤ p.2.maxStudents

/-! ## Batch grading task (tasks/grading_tasks.py, grade_test_written_answers) -/

/-- The dict the grading oracle returns, with the `.get` defaults the task
applies already folded in. -/
structure OracleResult where
  success : Bool
  score : ℚ
  overallFeedback : String
  gradedBy : String
  percentage : ℚ
deriving Repr, DecidableEq

/-- An oracle call either returns a result dict or raises (the error
string is the exception text). -/
def Oracle := Question → PyVal → Except String OracleResult

/-- The answers the batch selects: rows of the test joined to a question
of an open-ended type. -/
def isWrittenFor (db : DB) (a : AnswerRec) : Bool :=
  match db.questions.find? (fun q => q.id == a.questionId) with
  | some q => q.questionType == "essay" || q.questionType == "short-answer"
      || q.questionType == "matching"
  | Option.none => false

def writtenAnswers (db : DB) (testId : Nat) : List AnswerRec :=
  db.answers.filter (fun a => a.testId == testId && isWrittenFor db a)

/-- One iteration of the batch loop: a vanished question row is skipped; a
successful oracle call writes score, feedback, gradedBy, a grading status
reflecting the result's success flag, and the 60% correctness heuristic,
and counts the item as graded; a raised exception marks the row failed and
pending_manual_review, leaving the other fields (in particular feedback)
as they were, and the loop continues.  Returns (updated row, graded-count
contribution). -/
def gradeWrittenItem (oracle : Oracle) (db : DB) (a : AnswerRec) : AnswerRec × Nat :=
  match db.questions.find? (fun q => q.id == a.questionId) with
  | Option.none => (a, 0)
  | some q =>
    match oracle q a.answer with
    | .ok r =>
      ({ a with score := some r.score, feedback := some r.overallFeedback,
                gradedBy := some r.gradedBy,
                gradingStatus := some (if r.success then "completed" else "failed"),
                isCorrect := some (decide ((60 : ℚ) ≤ r.percentage)) }, 1)
    | .error _ =>
      ({ a with gradingStatus := some "failed", gradedBy := some "pending_manual_review" }, 0)

/-- The batch loop over the selected answers. -/
def gradeWrittenFold (oracle : Oracle) (db : DB) : List AnswerRec → List AnswerRec × Nat
  | [] => ([], 0)
  | a :: rest =>
    let h := gradeWrittenItem oracle db a
    let r := gradeWrittenFold oracle db rest
    (h.1 :: r.1, h.2 + r.2)

/-- The task's return value: either the early no-written-answers message
or the grading summary. -/
inductive BatchOutcome where
  | noWritten
  | graded (gradedAnswers totalWritten : Nat) (finalScore : ℚ)
deriving Repr, DecidableEq

/-- grade_test_written_answers: load the test, select the open-ended
answer rows, grade each through the per-item loop (per-item failures are
absorbed there), then recompute the test score as the sum over all of the
test's answer rows (`a.score or 0`) and promote a completed test to
graded.  Only a missing test makes the task itself fail. -/
def gradeTestWrittenAnswers (oracle : Oracle) (db : DB) (testId : Nat) :
    Except String (DB × BatchOutcome) :=
  match db.tests.find? (fun t => t.id == testId) with
  | Option.none => .error "Test not found"
  | some t =>
    let wa := writtenAnswers db testId
    if wa.isEmpty then .ok (db, .noWritten)
    else
      let loop := gradeWrittenFold oracle db wa
      let newAnswers := db.answers.map (fun a =>
        if a.testId == testId && isWrittenFor db a then (gradeWrittenItem oracle db a).1 else a)
      let totalScore := ((newAnswers.filter (fun a => a.testId == testId)).map
        (fun a => a.score.getD 0)).sum
      let t2 := { t with score := some totalScore,
                         status := if t.status == "completed" then "graded" else t.status }
      let db2 : DB := { db with
        tests := db.tests.map (fun u => if u.id == t.id then t2 else u),
        answers := newAnswers }
      .ok (db2, .graded loop.2 wa.length totalScore)

/-! ## Concrete fixtures used by individual claims -/

def c4q : Question :=
  { id := 1, projectId := 1, variantNumber := 1, questionType := "multiple-choice",
    text := "pick all", points := 2, correctAnswer := .list [.int 0, .int 1], order := 0 }

def c5q : Question :=
  { id := 10, projectId := 1, variantNumber := 1, questionType := "essay",
    text := "essay", points := 10, correctAnswer := pyNoneV, order := 0 }

def c5project : Project :=
  { id := 1, status := "active", startTime := Option.none, endTime := Option.none,
    allowedStudents := ["a@b.c"] }

def c5test : Test :=
  { id := 7, projectId := 1, studentId := 5, variantNumber := 1, status := "in-progress",
    score := some 0, maxScore := 55, startedAt := some 1, completedAt := Option.none }

def c5answer : AnswerRec :=
  { id := 1, testId := 7, questionId := 10, answer := .prim (.str ""),
    isCorrect := Option.none, score := Option.none, feedback := Option.none,
    gradingStatus := Option.none, gradedBy := Option.none }

def c5db : DB := { projects := [c5project], tests := [c5test], questions := [c5q], answers := [c5answer] }

def c6q : Question :=
  { id := 3, projectId := 1, variantNumber := 1, questionType := "true-false",
    text := "claim", points := 2, correctAnswer := .prim (.bool false), order := 0 }

def c1project : Project :=
  { id := 1, status := "active", startTime := Option.none, endTime := Option.none,
    allowedStudents := ["s@x.y"] }

def c1user : Student := { id := 5, email := "s@x.y", extraEmails := [] }

def c1q : Question :=
  { id := 2, projectId := 1, variantNumber := 1, questionType := "true-false",
    text := "q", points := 4, correctAnswer := .prim (.bool true), order := 0 }

def c1graded : Test :=
  { id := 7, projectId := 1, studentId := 5, variantNumber := 1, status := "graded",
    score := some 3, maxScore := 4, startedAt := some 1, completedAt := some 2 }

def c1db : DB := { projects := [c1project], tests := [c1graded], questions := [c1q], answers := [] }

def c1dbInProgress : DB :=
  { c1db with tests := [{ c1graded with status := "in-progress", completedAt := Option.none }] }

def c2q : Question :=
  { id := 20, projectId := 2, variantNumber := 1, questionType := "true-false",
    text := "tf", points := 10, correctAnswer := .prim (.bool true), order := 0 }

def c2test : Test :=
  { id := 8, projectId := 2, studentId := 6, variantNumber := 1, status := "in-progress",
    score := some 0, maxScore := 55, startedAt := some 1, completedAt := Option.none }

def c2answer : AnswerRec :=
  { id := 3, testId := 8, questionId := 20, answer := .prim (.str "true"),
    isCorrect := Option.none, score := Option.none, feedback := Option.none,
    gradingStatus := Option.none, gradedBy := Option.none }

def c2db : DB := { projects := [], tests := [c2test], questions := [c2q], answers := [c2answer] }

def c3test : Test :=
  { id := 9, projectId := 2, studentId := 6, variantNumber := 1, status := "completed",
    score := some 10, maxScore := 10, startedAt := some 1, completedAt := some 2 }

def c3db : DB := { projects := [], tests := [c3test], questions := [], answers := [] }

def c10test : Test :=
  { id := 30, projectId := 3, studentId := 7, variantNumber := 1, status := "in-progress",
    score := some 0, maxScore := 0, startedAt := some 1, completedAt := Option.none }

def c10q : Question :=
  { id := 40, projectId := 3, variantNumber := 2, questionType := "single-choice",
    text := "other variant", points := 5, correctAnswer := .prim (.int 1), order := 0 }

def c10db : DB := { projects := [], tests := [c10test], questions := [c10q], answers := [] }

def c10answer : AnswerRec :=
  { id := 4, testId := 30, questionId := 40, answer := .prim (.int 1),
    isCorrect := Option.none, score := Option.none, feedback := Option.none,
    gradingStatus := Option.none, gradedBy := Option.none }

def c7student : LobbyStudent :=
  { userId := "u1", firstName := "A", lastName := "B", email := "a@b.c", status := "ready" }

def c7lobby : Lobby :=
  { projectId := "p", maxStudents := 1, status := "waiting", students := [("u1", c7student)] }

def c7m : LobbyManager := [("p", c7lobby)]

def c7ops : List LobbyOp :=
  [.teacherConnect "q" 2, .studentConnect "q" "u2" "C" "D" "c@d.e",
   .studentConnect "p" "u3" "E" "F" "e@f.g", .ready "q" "u2" true,
   .start "q", .studentDisconnect "q" "u2", .markComplete "q", .close "q"]

def c8lobby : Lobby :=
  { projectId := "p", maxStudents := 5, status := "completed", students := [] }

def c8m : LobbyManager := [("p", c8lobby)]

def c8waiting : Lobby :=
  { projectId := "w", maxStudents := 5, status := "waiting", students := [] }

def c8mWaiting : LobbyManager := [("w", c8waiting)]

def c9q1 : Question :=
  { id := 10, projectId := 1, variantNumber := 1, questionType := "essay",
    text := "essay", points := 10, correctAnswer := pyNoneV, order := 0 }

def c9q2 : Question :=
  { id := 11, projectId := 1, variantNumber := 1, questionType := "short-answer",
    text := "short", points := 5, correctAnswer := pyNoneV, order := 1 }

def c9test : Test :=
  { id := 7, projectId := 1, studentId := 5, variantNumber := 1, status := "completed",
    score := some 0, maxScore := 15, startedAt := some 1, completedAt := some 2 }

def c9a1 : AnswerRec :=
  { id := 1, testId := 7, questionId := 10, answer := .prim (.str "my essay"),
    isCorrect := some false, score := some 0, feedback := Option.none,
    gradingStatus := Option.none, gradedBy := Option.none }

def c9a2 : AnswerRec :=
  { id := 2, testId := 7, questionId := 11, answer := .prim (.str "short text"),
    isCorrect := some false, score := some 0, feedback := Option.none,
    gradingStatus := Option.none, gradedBy := Option.none }

def c9db : DB :=
  { projects := [], tests := [c9test], questions := [c9q1, c9q2], answers := [c9a1, c9a2] }

/-- An oracle that raises on the essay question and succeeds on the
short-answer question. -/
def c9oracle : Oracle := fun q _ =>
  if q.id == 10 then .error "oracle timeout"
  else .ok { success := true, score := 4, overallFeedback := "good", gradedBy := "ai",
             percentage := 80 }

/-! ## General helper lemmas -/

/-- The finalize grading loop touches each answer row independently: its
record list is the per-item map and its totals are the per-item sums. -/
theorem gradeAnswers_eq (qs : List Question) (l : List AnswerRec) :
    gradeAnswers qs l =
      ⟨l.map (fun a => (gradeOne qs a).1),
       (l.map (fun a => (gradeOne qs a).2.1)).sum,
       (l.map (fun a => (gradeOne qs a).2.2)).sum⟩ := by
  induction l with
  | nil => simp [gradeAnswers]
  | cons a rest ih => simp [gradeAnswers, ih]

/-- An answer whose question id is outside the variant dict passes through
the finalize loop untouched and contributes nothing. -/
theorem gradeOne_skip (qs : List Question) (a : AnswerRec)
    (h : lookupQ qs a.questionId = Option.none) : gradeOne qs a = (a, 0, 0) := by
  simp [gradeOne, h]

/-- The batch grading loop touches each selected answer independently. -/
theorem gradeWrittenFold_eq (oracle : Oracle) (db : DB) (l : List AnswerRec) :
    gradeWrittenFold oracle db l =
      (l.map (fun a => (gradeWrittenItem oracle db a).1),
       (l.map (fun a => (gradeWrittenItem oracle db a).2)).sum) := by
  induction l with
  | nil => simp [gradeWrittenFold]
  | cons a rest ih => simp [gradeWrittenFold, ih]

/-- A nonempty intersection count forces the right-hand set to be
nonempty. -/
theorem pyInterCard_pos_right (xs ys : List PyPrim) (h : pyInterCard xs ys ≠ 0) :
    ys ≠ [] := by
  intro hys
  subst hys
  simp [pyInterCard, pyMem] at h

/-! ## Claim theorems -/

/-- C4 counterexample.  The claim says both grading paths award zero
points whenever the selected-index set differs from the correct-index set.
In the tests submit path, the question with correct set {0, 1} worth 2
points and the answer {0} grade isCorrect false but score 1, not 0. -/
theorem c4_tests_path_partial_credit_counterexample :
    gradeTestsMC c4q.points c4q.correctAnswer (.list [.int 0]) = (false, 1) ∧ (1 : ℚ) ≠ 0 := by
  refine ⟨?_, by norm_num⟩
  show gradeTestsMC 2 (.list [.int 0, .int 1]) (.list [.int 0]) = (false, 1)
  have hset : pySetEq (pySetOf (asListPy (.list [.int 0, .int 1])))
      (pySetOf (asListPy (.list [.int 0]))) = false := by decide
  have hint : pyInterCard (pySetOf (asListPy (.list [.int 0])))
      (pySetOf (asListPy (.list [.int 0, .int 1]))) = 1 := by decide
  have hlen : (pySetOf (asListPy (PyVal.list [.int 0, .int 1]))).length = 2 := by decide
  simp [gradeTestsMC, hset, hint, hlen]

/-- C4 amended: in both paths isCorrect holds exactly when the selected
set equals the correct set, and an exact match earns full points.  On a
mismatch the student path awards zero, but the tests path awards
proportional partial credit `points * |selected ∩ correct| / |correct|`,
which is positive whenever the overlap is nonempty and the question is
worth points; the score is zero only when the overlap is empty. -/
theorem c4_multiple_choice_grading (q : Question) (v : PyVal)
    (hmc : q.questionType = "multiple-choice") (p : Nat) (c a : PyVal) :
    ((gradeStudentAnswer q v).1 =
        strSetEq ((asListPy q.correctAnswer).map PyPrim.pyStr) ((asListPy v).map PyPrim.pyStr) ∧
      (gradeStudentAnswer q v).2 =
        (if (gradeStudentAnswer q v).1 then (q.points : ℚ) else 0)) ∧
    ((gradeTestsMC p c a).1 = pySetEq (pySetOf (asListPy c)) (pySetOf (asListPy a)) ∧
      ((gradeTestsMC p c a).1 = true → (gradeTestsMC p c a).2 = (p : ℚ)) ∧
      ((gradeTestsMC p c a).1 = false →
        pyInterCard (pySetOf (asListPy a)) (pySetOf (asListPy c)) = 0 →
        (gradeTestsMC p c a).2 = 0) ∧
      ((gradeTestsMC p c a).1 = false →
        pyInterCard (pySetOf (asListPy a)) (pySetOf (asListPy c)) ≠ 0 →
        0 < p → 0 < (gradeTestsMC p c a).2)) := by
  constructor
  · constructor
    · simp [gradeStudentAnswer, hmc]
    · simp [gradeStudentAnswer, hmc]
  · refine ⟨by simp [gradeTestsMC], ?_, ?_, ?_⟩
    · intro h1
      simp [gradeTestsMC] at h1 ⊢
      simp [h1]
    · intro h1 h2
      simp [gradeTestsMC] at h1 ⊢
      simp [h1, h2]
    · intro h1 h2 h3
      have hcs : pySetOf (asListPy c) ≠ [] := pyInterCard_pos_right _ _ h2
      have hlen : 0 < (pySetOf (asListPy c)).length := List.length_pos.mpr hcs
      have hinter : 0 < pyInterCard (pySetOf (asListPy a)) (pySetOf (asListPy c)) :=
        Nat.pos_of_ne_zero h2
      simp only [gradeTestsMC] at h1 ⊢
      rw [if_neg (by simp [h1]), if_pos (by simp [bne_iff_ne, h2])]
      positivity

/-- C5 counterexample.  The claim says a finalized essay answer ends with
isCorrect null and gradingStatus pending.  Finalizing the fixture attempt
whose only answer is the empty-string essay leaves a record with isCorrect
false (not null) and gradingStatus unset (not pending); only the score 0
part of the claim holds. -/
theorem c5_finalize_essay_counterexample :
    ((submitTest c5db 7 5 9).toOption.map (fun r =>
        r.1.answers.map (fun x => (x.isCorrect, x.score, x.gradingStatus)))) =
      some [(some false, some 0, Option.none)] ∧
    (some false : Option Bool) ≠ Option.none ∧
    (Option.none : Option String) ≠ some "pending" := by
  refine ⟨by rfl, by simp, by simp⟩

/-- C5 amended: synchronous grading at finalize does not score an answer
to a short-answer, essay or matching question: the record keeps its
feedback and gradingStatus (the student submit path never writes
gradingStatus, so rows created by submitAnswer stay unset there, not
pending) but its isCorrect is set to false — not null — and its score to
0, and it contributes nothing to the score or correct count. -/
theorem c5_open_ended_not_scored (qs : List Question) (a : AnswerRec) (q : Question)
    (hq : lookupQ qs a.questionId = some q)
    (ht : q.questionType = "short-answer" ∨ q.questionType = "essay" ∨
      q.questionType = "matching") :
    gradeOne qs a = ({ a with isCorrect := some false, score := some 0 }, 0, 0) ∧
    (gradeOne qs a).1.gradingStatus = a.gradingStatus ∧
    (gradeOne qs a).1.feedback = a.feedback := by
  have hg : gradeStudentAnswer q a.answer = (false, 0) := by
    rcases ht with h | h | h <;> simp [gradeStudentAnswer, h]
  refine ⟨?_, ?_, ?_⟩ <;> simp [gradeOne, hq, hg]

/-- C5 witness: the essay fixture, graded through the finalize loop. -/
theorem c5_open_ended_not_scored_witness :
    lookupQ [c5q] c5answer.questionId = some c5q ∧
    gradeOne [c5q] c5answer = ({ c5answer with isCorrect := some false, score := some 0 }, 0, 0) := by
  refine ⟨by decide, ?_⟩
  exact (c5_open_ended_not_scored [c5q] c5answer c5q (by decide) (Or.inr (Or.inl rfl))).1

/-- C6 counterexample.  The claim says a null answer always grades
isCorrect false with score 0, in particular for true-false questions with
a falsy stored correct answer.  On the fixture true-false question whose
stored correct answer is False, the null answer grades correct with full
points: both sides normalize to boolean false and compare equal. -/
theorem c6_null_true_false_counterexample :
    (gradeStudentAnswer c6q pyNoneV).1 = true ∧
    (gradeStudentAnswer c6q pyNoneV).2 = 2 ∧ (2 : ℚ) ≠ 0 := by
  refine ⟨by decide, by decide, by norm_num⟩

/-- C6 amended: grading a null raw answer never raises (the grading
function is total) and yields isCorrect false with score 0, except where
the stored correct answer itself normalizes like null: a true-false
question grades the null answer correct with full points exactly when its
stored correct answer is not a truthy token; a single-choice question
exactly when its stored correct answer prints as "None"; a
multiple-choice question exactly when its stored correct answer is the
empty list or not a list.  A missing answer row is simply skipped by the
finalize loop, contributing nothing. -/
theorem c6_null_answer_grading (q : Question) :
    (q.questionType = "true-false" →
      (truthyTok (asciiLower q.correctAnswer.pyStr) = false →
        gradeStudentAnswer q pyNoneV = (true, (q.points : ℚ))) ∧
      (truthyTok (asciiLower q.correctAnswer.pyStr) = true →
        gradeStudentAnswer q pyNoneV = (false, 0))) ∧
    (q.questionType = "single-choice" →
      (q.correctAnswer.pyStr = "None" →
        gradeStudentAnswer q pyNoneV = (true, (q.points : ℚ))) ∧
      (q.correctAnswer.pyStr ≠ "None" →
        gradeStudentAnswer q pyNoneV = (false, 0))) ∧
    (q.questionType = "multiple-choice" →
      (asListPy q.correctAnswer = [] →
        gradeStudentAnswer q pyNoneV = (true, (q.points : ℚ))) ∧
      (asListPy q.correctAnswer ≠ [] →
        gradeStudentAnswer q pyNoneV = (false, 0))) ∧
    (q.questionType ≠ "single-choice" → q.questionType ≠ "true-false" →
      q.questionType ≠ "multiple-choice" →
      gradeStudentAnswer q pyNoneV = (false, 0)) := by
  have hvstr : PyVal.pyStr pyNoneV = "None" := rfl
  have hvtok : truthyTok (asciiLower (PyVal.pyStr pyNoneV)) = false := by decide
  have hsc : scInt pyNoneV = Option.none := rfl
  have hvlist : asListPy pyNoneV = [] := rfl
  refine ⟨?_, ?_, ?_, ?_⟩
  · intro ht
    constructor
    · intro hfalsy
      simp [gradeStudentAnswer, ht, hvtok, hfalsy]
    · intro htruthy
      simp [gradeStudentAnswer, ht, hvtok, htruthy]
  · intro ht
    constructor
    · intro hnone
      cases hc : scInt q.correctAnswer <;>
        simp [gradeStudentAnswer, ht, hc, hsc, hvstr, hnone]
    · intro hne
      have hb : (PyVal.pyStr pyNoneV == PyVal.pyStr q.correctAnswer) = false := by
        rw [hvstr]
        exact beq_eq_false_iff_ne.mpr (fun h => hne h.symm)
      cases hc : scInt q.correctAnswer <;>
        simp [gradeStudentAnswer, ht, hc, hsc, hb]
  · intro ht
    constructor
    · intro hnil
      simp [gradeStudentAnswer, ht, hnil, hvlist, strSetEq]
    · intro hne
      cases hl : asListPy q.correctAnswer with
      | nil => exact absurd hl hne
      | cons x xs =>
        have hfalse : strSetEq (PyPrim.pyStr x :: xs.map PyPrim.pyStr) [] = false := rfl
        simp [gradeStudentAnswer, ht, hl, hvlist, hfalse]
  · intro h1 h2 h3
    simp [gradeStudentAnswer, h1, h2, h3]

/-- C6 witness: the fixture true-false question with stored correct answer
False, graded on a null answer. -/
theorem c6_null_answer_grading_witness :
    c6q.questionType = "true-false" ∧
    truthyTok (asciiLower c6q.correctAnswer.pyStr) = false ∧
    gradeStudentAnswer c6q pyNoneV = (true, (c6q.points : ℚ)) := by
  refine ⟨rfl, by decide, ?_⟩
  exact ((c6_null_answer_grading c6q).1 rfl).1 (by decide)

/-- C4 witness: evaluates the amended theorem on the fixture question, the
answer {0}, and the tests-path inputs from the counterexample. -/
theorem c4_multiple_choice_grading_witness :
    c4q.questionType = "multiple-choice" ∧
    (gradeStudentAnswer c4q (.list [.int 0])).2 = 0 ∧
    0 < (gradeTestsMC 2 (.list [.int 0, .int 1]) (.list [.int 0])).2 := by
  have h := c4_multiple_choice_grading c4q (.list [.int 0]) (by decide) 2
    (.list [.int 0, .int 1]) (.list [.int 0])
  refine ⟨by decide, ?_, ?_⟩
  · rw [h.1.2]
    decide
  · exact h.2.2.2.2 (by decide) (by decide) (by decide)

/-- C2: finalizing an in-progress attempt recomputes maxScore as the sum
of the assigned variant's question points (an expression that never reads
the previously stored maxScore), sets score to the sum of the per-answer
scores just computed by the grading loop, marks the attempt completed
with completedAt set, and returns score, maxScore, correct and total
counts, and passed, where passed holds exactly when maxScore is positive
and score is at least 60% of it (so passed is false when maxScore is 0). -/
theorem c2_finalize_recomputes_and_completes (db : DB) (testId studentId now : Nat)
    (t : Test) (hfind : findTestFor db testId studentId = some t)
    (hst : t.status = "in-progress") :
    ∃ db2 res,
      submitTest db testId studentId now = Except.ok (db2, res) ∧
      res.testId = t.id ∧
      res.maxScore = sumPoints (dedupById (variantQuestions db t)) ∧
      res.score = ((db.answers.filter (fun a => a.testId == testId)).map
        (fun a => (gradeOne (dedupById (variantQuestions db t)) a).2.1)).sum ∧
      res.correctAnswers = ((db.answers.filter (fun a => a.testId == testId)).map
        (fun a => (gradeOne (dedupById (variantQuestions db t)) a).2.2)).sum ∧
      res.totalQuestions = (dedupById (variantQuestions db t)).length ∧
      (res.passed = true ↔ 0 < res.maxScore ∧ 3 / 5 * res.maxScore ≤ res.score) ∧
      db2.tests = db.tests.map (fun u => if u.id == t.id then
        { t with status := "completed", completedAt := some now,
                 score := some res.score, maxScore := res.maxScore } else u) ∧
      db2.answers = db.answers.map (fun a => if a.testId == testId then
        (gradeOne (dedupById (variantQuestions db t)) a).1 else a) := by
  have hne : ¬((t.status == "completed") = true) := by simp [hst]
  have hmain : submitTest db testId studentId now = Except.ok
      ({ db with
          tests := db.tests.map (fun u => if u.id == t.id then
            { t with status := "completed", completedAt := some now,
                     score := some (gradeAnswers (dedupById (variantQuestions db t))
                       (db.answers.filter (fun a => a.testId == testId))).totalScore,
                     maxScore := sumPoints (dedupById (variantQuestions db t)) } else u),
          answers := db.answers.map (fun a => if a.testId == testId then
            (gradeOne (dedupById (variantQuestions db t)) a).1 else a) },
       { testId := t.id,
         score := (gradeAnswers (dedupById (variantQuestions db t))
           (db.answers.filter (fun a => a.testId == testId))).totalScore,
         maxScore := sumPoints (dedupById (variantQuestions db t)),
         correctAnswers := (gradeAnswers (dedupById (variantQuestions db t))
           (db.answers.filter (fun a => a.testId == testId))).correctCount,
         totalQuestions := (dedupById (variantQuestions db t)).length,
         passed := if 0 < sumPoints (dedupById (variantQuestions db t)) then
           decide (3 / 5 * sumPoints (dedupById (variantQuestions db t)) ≤
             (gradeAnswers (dedupById (variantQuestions db t))
               (db.answers.filter (fun a => a.testId == testId))).totalScore)
           else false }) := by
    simp only [submitTest, hfind]
    rw [if_neg hne]
  refine ⟨_, _, hmain, rfl, rfl, ?_, ?_, rfl, ?_, rfl, rfl⟩
  · simp [gradeAnswers_eq]
  · simp [gradeAnswers_eq]
  · by_cases hp : 0 < sumPoints (dedupById (variantQuestions db t)) <;>
      simp [hp, decide_eq_true_iff]

/-- C2 witness: the fixture attempt with one true-false question answered
"true"; its stored maxScore 55 is replaced by the recomputed 10. -/
theorem c2_finalize_recomputes_and_completes_witness :
    (findTestFor c2db 8 6 = some c2test ∧ c2test.status = "in-progress") ∧
    (∃ db2 res,
      submitTest c2db 8 6 9 = Except.ok (db2, res) ∧
      res.testId = c2test.id ∧
      res.maxScore = sumPoints (dedupById (variantQuestions c2db c2test)) ∧
      res.score = ((c2db.answers.filter (fun a => a.testId == 8)).map
        (fun a => (gradeOne (dedupById (variantQuestions c2db c2test)) a).2.1)).sum ∧
      res.correctAnswers = ((c2db.answers.filter (fun a => a.testId == 8)).map
        (fun a => (gradeOne (dedupById (variantQuestions c2db c2test)) a).2.2)).sum ∧
      res.totalQuestions = (dedupById (variantQuestions c2db c2test)).length ∧
      (res.passed = true ↔ 0 < res.maxScore ∧ 3 / 5 * res.maxScore ≤ res.score) ∧
      db2.tests = c2db.tests.map (fun u => if u.id == c2test.id then
        { c2test with status := "completed", completedAt := some 9,
                      score := some res.score, maxScore := res.maxScore } else u) ∧
      db2.answers = c2db.answers.map (fun a => if a.testId == 8 then
        (gradeOne (dedupById (variantQuestions c2db c2test)) a).1 else a)) :=
  ⟨⟨by decide, rfl⟩, c2_finalize_recomputes_and_completes c2db 8 6 9 c2test (by decide) rfl⟩

/-- C3: a second finalize call on an already completed attempt fails with
the AlreadyCompleted rejection.  The endpoint raises before any write, so
the error return carries no state change: the attempt's score, maxScore,
status, completedAt and all answer rows are untouched. -/
theorem c3_refinalize_fails_already_completed (db : DB) (testId studentId now : Nat)
    (t : Test) (hfind : findTestFor db testId studentId = some t)
    (hst : t.status = "completed") :
    submitTest db testId studentId now =
      Except.error (ApiError.badRequest "Test already completed") := by
  have hc : (t.status == "completed") = true := by rw [hst]; rfl
  simp only [submitTest, hfind, hc, if_true]

/-- C3 witness: the completed fixture attempt. -/
theorem c3_refinalize_fails_already_completed_witness :
    (findTestFor c3db 9 6 = some c3test ∧ c3test.status = "completed") ∧
    submitTest c3db 9 6 11 =
      Except.error (ApiError.badRequest "Test already completed") :=
  ⟨⟨by decide, rfl⟩, c3_refinalize_fails_already_completed c3db 9 6 11 c3test (by decide) rfl⟩

/-- C10: submitAnswer on an in-progress attempt accepts any question id
that exists in the questions table — the lookup has no project or variant
filter, so a question of another variant or another project is accepted —
and upserts an answer row for it; and the finalize grading loop treats
each answer row independently, passing any row whose question id is
outside the variant dict through unchanged with zero contribution to the
score sum and the correct count. -/
theorem c10_out_of_variant_answers (db : DB) (testId studentId qid newId : Nat)
    (v : PyVal) (t : Test) (q : Question)
    (hfind : db.tests.find? (fun u =>
      u.id == testId && u.studentId == studentId && u.status == "in-progress") = some t)
    (hq : db.questions.find? (fun r => r.id == qid) = some q) :
    (∃ db2, submitAnswer db testId studentId (some qid) v newId = Except.ok (db2, (qid, v)) ∧
      ∃ a ∈ db2.answers, a.testId = testId ∧ a.questionId = qid ∧ a.answer = v) ∧
    (∀ qs a2, lookupQ qs a2.questionId = Option.none → gradeOne qs a2 = (a2, 0, 0)) ∧
    (∀ qs l, gradeAnswers qs l = ⟨l.map (fun a2 => (gradeOne qs a2).1),
      (l.map (fun a2 => (gradeOne qs a2).2.1)).sum,
      (l.map (fun a2 => (gradeOne qs a2).2.2)).sum⟩) := by
  refine ⟨?_, fun qs a2 h => gradeOne_skip qs a2 h, fun qs l => gradeAnswers_eq qs l⟩
  cases hex : db.answers.find? (fun a => a.testId == testId && a.questionId == qid) with
  | none =>
    refine ⟨{ db with answers := db.answers ++
        [{ id := newId, testId := testId, questionId := qid, answer := v,
           isCorrect := Option.none, score := Option.none, feedback := Option.none,
           gradingStatus := Option.none, gradedBy := Option.none }] }, ?_, ?_⟩
    · simp only [submitAnswer, hfind, hq, hex]
    · exact ⟨_, List.mem_append_right _ (List.mem_singleton.mpr rfl), rfl, rfl, rfl⟩
  | some a0 =>
    have hmem : a0 ∈ db.answers := List.mem_of_find?_eq_some hex
    have hpred := List.find?_some hex
    have hta : a0.testId = testId := by
      simp only [Bool.and_eq_true, beq_iff_eq] at hpred
      exact hpred.1
    have hqa : a0.questionId = qid := by
      simp only [Bool.and_eq_true, beq_iff_eq] at hpred
      exact hpred.2
    refine ⟨{ db with answers := db.answers.map (fun x =>
        if x.id == a0.id then { a0 with answer := v } else x) }, ?_, ?_⟩
    · simp only [submitAnswer, hfind, hq, hex]
    · refine ⟨{ a0 with answer := v }, ?_, by simp [hta], by simp [hqa], rfl⟩
      have hmem2 := List.mem_map_of_mem
        (fun x => if x.id == a0.id then { a0 with answer := v } else x) hmem
      simpa using hmem2

/-- C10 witness: the fixture attempt of variant 1 accepts an answer to
the variant-2 question, and that answer passes through the grading loop
unchanged with zero contribution. -/
theorem c10_out_of_variant_answers_witness :
    (c10db.tests.find? (fun u =>
        u.id == 30 && u.studentId == 7 && u.status == "in-progress") = some c10test ∧
      c10db.questions.find? (fun r => r.id == 40) = some c10q ∧
      lookupQ (dedupById (variantQuestions c10db c10test)) c10answer.questionId = Option.none) ∧
    (∃ db2, submitAnswer c10db 30 7 (some 40) (.prim (.int 1)) 4 =
        Except.ok (db2, (40, .prim (.int 1))) ∧
      ∃ a ∈ db2.answers, a.testId = 30 ∧ a.questionId = 40 ∧ a.answer = PyVal.prim (.int 1)) ∧
    gradeOne (dedupById (variantQuestions c10db c10test)) c10answer = (c10answer, 0, 0) := by
  have h := c10_out_of_variant_answers c10db 30 7 40 4 (.prim (.int 1)) c10test c10q
    (by decide) (by decide)
  exact ⟨⟨by decide, by decide, by decide⟩, h.1, h.2.1 _ c10answer (by decide)⟩

/-- C1 counterexample.  The claim says begin on an existing completed or
graded attempt fails AlreadyCompleted and creates no new attempt.  On the
fixture state whose attempt is graded, begin does not fail: it creates
and returns a second attempt (the tests table grows from 1 to 2 rows). -/
theorem c1_graded_attempt_counterexample :
    (startTestForStudent c1db 1 c1user 3 0 99).toOption.map
        (fun r => r.1.tests.length) = some 2 ∧
    c1db.tests.length = 1 ∧
    startTestForStudent c1db 1 c1user 3 0 99 ≠
      Except.error (ApiError.badRequest "You have already completed this test") := by
  have h : (startTestForStudent c1db 1 c1user 3 0 99).toOption.map
      (fun r => r.1.tests.length) = some 2 := by rfl
  refine ⟨h, rfl, ?_⟩
  intro habs
  rw [habs] at h
  simp [Except.toOption] at h

/-- C1 amended: when begin finds an existing attempt for the (project,
student) pair, an in-progress attempt is returned unchanged — same id,
variant number and the variant's questions, with the database untouched —
and a completed attempt fails AlreadyCompleted with no write; but a
graded attempt does not fail: control falls through to the creation tail
and a fresh attempt is created, exactly as when no attempt exists. -/
theorem c1_begin_existing_attempt (db : DB) (projectId : Nat) (user : Student)
    (now pick newTestId : Nat) (project : Project) (t : Test)
    (hp : db.projects.find? (fun p => p.id == projectId) = some project)
    (hallow : emailAllowed project user = true)
    (hwin : accessWindowError project now = Option.none)
    (hex : db.tests.find? (fun u => u.projectId == projectId && u.studentId == user.id) = some t) :
    (t.status = "in-progress" →
      startTestForStudent db projectId user now pick newTestId =
        Except.ok (db, { id := t.id, projectId := projectId, status := t.status,
                         startedAt := t.startedAt, maxScore := t.maxScore,
                         variantNumber := t.variantNumber,
                         questions := orderedVariantQuestions db projectId t.variantNumber })) ∧
    (t.status = "completed" →
      startTestForStudent db projectId user now pick newTestId =
        Except.error (ApiError.badRequest "You have already completed this test")) ∧
    (t.status = "graded" →
      startTestForStudent db projectId user now pick newTestId =
        createNewAttempt db projectId user now pick newTestId) := by
  refine ⟨?_, ?_, ?_⟩
  · intro h
    have h1 : (t.status == "completed") = false := by rw [h]; rfl
    have h2 : (t.status == "in-progress") = true := by rw [h]; rfl
    simp only [startTestForStudent, hp, hallow, Bool.not_true, Bool.false_eq_true, if_false,
      hwin, hex, h1, h2, if_true]
  · intro h
    have h1 : (t.status == "completed") = true := by rw [h]; rfl
    simp only [startTestForStudent, hp, hallow, Bool.not_true, Bool.false_eq_true, if_false,
      hwin, hex, h1, if_true]
  · intro h
    have h1 : (t.status == "completed") = false := by rw [h]; rfl
    have h2 : (t.status == "in-progress") = false := by rw [h]; rfl
    simp only [startTestForStudent, hp, hallow, Bool.not_true, Bool.false_eq_true, if_false,
      hwin, hex, h1, h2]

/-- C1 witness: the fixture state with an in-progress attempt; begin
returns that same attempt and leaves the database unchanged. -/
theorem c1_begin_existing_attempt_witness :
    (c1dbInProgress.projects.find? (fun p => p.id == 1) = some c1project ∧
      emailAllowed c1project c1user = true ∧
      accessWindowError c1project 3 = Option.none ∧
      c1dbInProgress.tests.find? (fun u => u.projectId == 1 && u.studentId == 5) =
        some { c1graded with status := "in-progress", completedAt := Option.none }) ∧
    startTestForStudent c1dbInProgress 1 c1user 3 0 99 =
      Except.ok (c1dbInProgress,
        { id := c1graded.id, projectId := 1, status := "in-progress",
          startedAt := c1graded.startedAt, maxScore := c1graded.maxScore,
          variantNumber := c1graded.variantNumber,
          questions := orderedVariantQuestions c1dbInProgress 1 c1graded.variantNumber }) := by
  have h := (c1_begin_existing_attempt c1dbInProgress 1 c1user 3 0 99 c1project
    { c1graded with status := "in-progress", completedAt := Option.none }
    (by decide) (by decide) (by decide) (by decide)).1 rfl
  exact ⟨⟨by decide, by decide, by decide, by decide⟩, h⟩

/-! ## Lobby helper lemmas -/

/-- A lobby returned by getLobby is the payload of a registry entry. -/
theorem getLobby_mem (m : LobbyManager) (pid : String) (l : Lobby)
    (h : getLobby m pid = some l) : ∃ p ∈ m, (p : String × Lobby).2 = l := by
  unfold getLobby at h
  cases hf : List.find? (fun p => p.1 == pid) m with
  | none => rw [hf] at h; simp at h
  | some pr =>
    rw [hf] at h
    simp at h
    exact ⟨pr, List.mem_of_find?_eq_some hf, h⟩

/-- Replacing a lobby that satisfies the capacity bound preserves the
registry-wide capacity invariant. -/
theorem capOk_setLobby (m : LobbyManager) (pid : String) (l : Lobby)
    (hm : capOk m) (hl : l.studentCount ≤ l.maxStudents) : capOk (setLobby m pid l) := by
  intro p hp
  rcases List.mem_map.mp hp with ⟨q, hq, rfl⟩
  by_cases hc : q.1 == pid
  · simpa [hc] using hl
  · simpa [hc] using hm q hq

/-- Dict assignment grows the map by at most one entry. -/
theorem dictInsert_length_le (xs : List (String × LobbyStudent)) (k : String)
    (v : LobbyStudent) : (dictInsert xs k v).length ≤ xs.length + 1 := by
  unfold dictInsert
  split
  · simp
  · simp

theorem capOk_connectStudent (m : LobbyManager) (pid uid f l e : String)
    (hm : capOk m) : capOk (connectStudent m pid uid f l e).1 := by
  unfold connectStudent
  cases hg : getLobby m pid with
  | none => exact hm
  | some L =>
    by_cases hfull : L.isFull
    · simpa [hfull] using hm
    · by_cases hw : L.status != "waiting"
      · simpa [hfull, hw] using hm
      · have hlt : L.studentCount < L.maxStudents := by
          have : ¬(L.maxStudents ≤ L.studentCount) := by
            simpa [Lobby.isFull] using hfull
          omega
        simp only [hfull, hw, Bool.false_eq_true, if_false]
        apply capOk_setLobby m pid _ hm
        calc (dictInsert L.students uid _).length ≤ L.students.length + 1 :=
              dictInsert_length_le _ _ _
          _ ≤ L.maxStudents := hlt

theorem capOk_disconnectStudent (m : LobbyManager) (pid uid : String)
    (hm : capOk m) : capOk (disconnectStudent m pid uid) := by
  unfold disconnectStudent
  cases hg : getLobby m pid with
  | none => exact hm
  | some L =>
    rcases getLobby_mem m pid L hg with ⟨p, hp, hpl⟩
    apply capOk_setLobby m pid _ hm
    calc (dictRemove L.students uid).length ≤ L.students.length :=
          List.length_filter_le _ _
      _ ≤ L.maxStudents := by rw [show L = p.2 from hpl.symm]; exact hm p hp

theorem capOk_setStudentReady (m : LobbyManager) (pid uid : String) (r : Bool)
    (hm : capOk m) : capOk (setStudentReady m pid uid r) := by
  unfold setStudentReady
  cases hg : getLobby m pid with
  | none => exact hm
  | some L =>
    rcases getLobby_mem m pid L hg with ⟨p, hp, hpl⟩
    by_cases hin : L.students.any (fun q => q.1 == uid)
    · simp only [hin, if_true]
      apply capOk_setLobby m pid _ hm
      show (L.students.map _).length ≤ L.maxStudents
      rw [List.length_map, show L = p.2 from hpl.symm]
      exact hm p hp
    · simpa [hin] using hm

theorem capOk_startTest (m : LobbyManager) (pid : String)
    (hm : capOk m) : capOk (startTest m pid).1 := by
  unfold startTest
  cases hg : getLobby m pid with
  | none => exact hm
  | some L =>
    rcases getLobby_mem m pid L hg with ⟨p, hp, hpl⟩
    apply capOk_setLobby m pid _ hm
    show L.students.length ≤ L.maxStudents
    rw [show L = p.2 from hpl.symm]
    exact hm p hp

theorem capOk_completeTest (m : LobbyManager) (pid : String)
    (hm : capOk m) : capOk (completeTest m pid) := by
  unfold completeTest
  cases hg : getLobby m pid with
  | none => exact hm
  | some L =>
    rcases getLobby_mem m pid L hg with ⟨p, hp, hpl⟩
    apply capOk_setLobby m pid _ hm
    show L.students.length ≤ L.maxStudents
    rw [show L = p.2 from hpl.symm]
    exact hm p hp

theorem capOk_connectTeacher (m : LobbyManager) (pid : String) (cap : Nat)
    (hm : capOk m) : capOk (connectTeacher m pid cap) := by
  unfold connectTeacher
  by_cases hc : List.any m (fun p => p.1 == pid)
  · simpa [hc] using hm
  · simp only [hc, Bool.false_eq_true, if_false]
    intro p hp
    rcases List.mem_append.mp hp with h | h
    · exact hm p h
    · rcases List.mem_singleton.mp h with rfl
      exact Nat.zero_le _

theorem capOk_closeLobby (m : LobbyManager) (pid : String)
    (hm : capOk m) : capOk (closeLobby m pid) := by
  intro p hp
  exact hm p (List.mem_of_mem_filter hp)

/-- Every lobby operation preserves the capacity invariant. -/
theorem capOk_applyOp (m : LobbyManager) (op : LobbyOp)
    (hm : capOk m) : capOk (applyOp m op) := by
  cases op with
  | teacherConnect pid cap => exact capOk_connectTeacher m pid cap hm
  | studentConnect pid uid f l e => exact capOk_connectStudent m pid uid f l e hm
  | studentDisconnect pid uid => exact capOk_disconnectStudent m pid uid hm
  | ready pid uid r => exact capOk_setStudentReady m pid uid r hm
  | start pid => exact capOk_startTest m pid hm
  | markComplete pid => exact capOk_completeTest m pid hm
  | close pid => exact capOk_closeLobby m pid hm

/-- After replacing the lobby under a registered key, lookup returns the
replacement. -/
theorem getLobby_setLobby (m : LobbyManager) (pid : String) (l l2 : Lobby)
    (h : getLobby m pid = some l) : getLobby (setLobby m pid l2) pid = some l2 := by
  induction m with
  | nil => simp [getLobby] at h
  | cons p ps ih =>
    rcases p with ⟨k, L⟩
    by_cases hc : k = pid
    · subst hc
      simp [getLobby, setLobby, List.find?_cons, -List.find?_map]
    · have hrec : getLobby ps pid = some l := by
        simpa [getLobby, List.find?_cons, hc, -List.find?_map] using h
      have hres := ih hrec
      simpa [getLobby, setLobby, List.find?_cons, hc, -List.find?_map] using hres

/-! ## Lobby claim theorems -/

/-- C7: a student connecting to a lobby whose student count has reached
its capacity is rejected LobbyFull with no state change, and every
sequence of lobby operations (teacher/student connects, disconnects,
readiness changes, start, complete, close) preserves the invariant that
no lobby holds more students than its capacity. -/
theorem c7_lobby_capacity_invariant :
    (∀ (m : LobbyManager) (pid uid f l e : String) (L : Lobby),
      getLobby m pid = some L → L.studentCount = L.maxStudents →
      connectStudent m pid uid f l e = (m, ConnectOutcome.lobbyFull)) ∧
    (∀ (ops : List LobbyOp) (m0 : LobbyManager),
      capOk m0 → capOk (ops.foldl applyOp m0)) := by
  constructor
  · intro m pid uid f l e L hg heq
    have hF : L.isFull = true := by
      simp [Lobby.isFull, heq]
    unfold connectStudent
    rw [hg]
    simp [hF]
  · intro ops
    induction ops with
    | nil => intro m0 h; exact h
    | cons op rest ih =>
      intro m0 h
      exact ih (applyOp m0 op) (capOk_applyOp m0 op h)

/-- C7 witness: the fixture lobby of capacity 1 with one student rejects
a second student, and a concrete operation sequence starting from the
fixture registry keeps every lobby within capacity. -/
theorem c7_lobby_capacity_invariant_witness :
    (getLobby c7m "p" = some c7lobby ∧ c7lobby.studentCount = c7lobby.maxStudents ∧
      capOk c7m) ∧
    connectStudent c7m "p" "u3" "E" "F" "e@f.g" = (c7m, ConnectOutcome.lobbyFull) ∧
    capOk (c7ops.foldl applyOp c7m) := by
  have h := c7_lobby_capacity_invariant
  have hcap : capOk c7m := by unfold capOk; decide
  refine ⟨⟨by decide, by decide, hcap⟩, ?_, ?_⟩
  · exact h.1 c7m "p" "u3" "E" "F" "e@f.g" c7lobby (by decide) (by decide)
  · exact h.2 c7ops c7m hcap

/-- C8 counterexample.  The claim says startTest is a no-op on a lobby in
any status other than waiting.  On the fixture registry whose lobby is
completed, startTest changes the lobby's status back to active, moving
the status backwards. -/
theorem c8_start_test_on_completed_counterexample :
    getLobby c8m "p" = some c8lobby ∧ c8lobby.status = "completed" ∧
    (startTest c8m "p").2 = true ∧
    (getLobby (startTest c8m "p").1 "p").map Lobby.status = some "active" ∧
    "active" ≠ "completed" := by
  refine ⟨by decide, rfl, by decide, by decide, by decide⟩

/-- C8 amended: startTest sets the lobby's status to active whenever the
lobby exists, regardless of its current status — it is a no-op only when
no lobby is registered for the project.  In particular a completed lobby
moves back to active, so lobby status is not forward-only under
startTest. -/
theorem c8_start_test_unconditional (m : LobbyManager) (pid : String) :
    (∀ l, getLobby m pid = some l →
      startTest m pid = (setLobby m pid { l with status := "active" }, true) ∧
      getLobby (startTest m pid).1 pid = some { l with status := "active" }) ∧
    (getLobby m pid = Option.none → startTest m pid = (m, false)) := by
  constructor
  · intro l hg
    constructor
    · unfold startTest
      rw [hg]
    · unfold startTest
      rw [hg]
      exact getLobby_setLobby m pid l _ hg
  · intro hg
    unfold startTest
    rw [hg]

/-- C8 witness: the fixture waiting lobby is moved to active. -/
theorem c8_start_test_unconditional_witness :
    (getLobby c8mWaiting "w" = some c8waiting) ∧
    startTest c8mWaiting "w" =
      (setLobby c8mWaiting "w" { c8waiting with status := "active" }, true) ∧
    getLobby (startTest c8mWaiting "w").1 "w" = some { c8waiting with status := "active" } :=
  ⟨by decide, (c8_start_test_unconditional c8mWaiting "w").1 c8waiting (by decide)⟩

/-! ## Batch grading claim theorems -/

/-- C9 counterexample.  The claim says a per-item grading failure marks
the record failed / pending_manual_review "with human-readable feedback".
Running the batch on the fixture test, where the oracle raises on the
essay item, marks that record failed and pending_manual_review but
leaves its feedback unset — no message is written — while the other item
is graded and the job returns successfully. -/
theorem c9_no_feedback_on_failure_counterexample :
    ((gradeTestWrittenAnswers c9oracle c9db 7).toOption.map (fun r =>
        r.1.answers.map (fun a => (a.gradingStatus, a.gradedBy, a.feedback)))) =
      some [(some "failed", some "pending_manual_review", Option.none),
            (some "completed", some "ai", some "good")] ∧
    (Option.none : Option String) ≠ some "Auto-grading failed: oracle timeout" := by
  refine ⟨by rfl, by simp⟩

/-- C9 amended: when grading one answer of a batch raises, that answer's
record is marked gradingStatus failed and gradedBy pending_manual_review
with its feedback and score left unchanged (no failure message is
written); every other answer in the batch is still processed
independently; and the job as a whole still returns successfully. -/
theorem c9_batch_survives_item_failure (oracle : Oracle) (db : DB) (a : AnswerRec)
    (q : Question) (e : String)
    (hq : db.questions.find? (fun r => r.id == a.questionId) = some q)
    (herr : oracle q a.answer = Except.error e) :
    gradeWrittenItem oracle db a =
      ({ a with gradingStatus := some "failed", gradedBy := some "pending_manual_review" }, 0) ∧
    (gradeWrittenItem oracle db a).1.feedback = a.feedback ∧
    (gradeWrittenItem oracle db a).1.score = a.score ∧
    (∀ l, gradeWrittenFold oracle db l =
      (l.map (fun x => (gradeWrittenItem oracle db x).1),
       (l.map (fun x => (gradeWrittenItem oracle db x).2)).sum)) ∧
    (∀ testId t, db.tests.find? (fun u => u.id == testId) = some t →
      ∃ r, gradeTestWrittenAnswers oracle db testId = Except.ok r) := by
  have hitem : gradeWrittenItem oracle db a =
      ({ a with gradingStatus := some "failed", gradedBy := some "pending_manual_review" }, 0) := by
    simp [gradeWrittenItem, hq, herr]
  refine ⟨hitem, by rw [hitem], by rw [hitem], fun l => gradeWrittenFold_eq oracle db l, ?_⟩
  intro testId t ht
  simp only [gradeTestWrittenAnswers, ht]
  by_cases hw : (writtenAnswers db testId).isEmpty
  · rw [if_pos hw]
    exact ⟨_, rfl⟩
  · rw [if_neg hw]
    exact ⟨_, rfl⟩

/-- C9 witness: the fixture batch whose oracle raises on the essay item. -/
theorem c9_batch_survives_item_failure_witness :
    (c9db.questions.find? (fun r => r.id == c9a1.questionId) = some c9q1 ∧
      c9oracle c9q1 c9a1.answer = Except.error "oracle timeout" ∧
      c9db.tests.find? (fun u => u.id == 7) = some c9test) ∧
    gradeWrittenItem c9oracle c9db c9a1 =
      ({ c9a1 with gradingStatus := some "failed",
                   gradedBy := some "pending_manual_review" }, 0) ∧
    (∃ r, gradeTestWrittenAnswers c9oracle c9db 7 = Except.ok r) := by
  have h := c9_batch_survives_item_failure c9oracle c9db c9a1 c9q1 "oracle timeout"
    (by decide) (by rfl)
  exact ⟨⟨by decide, by rfl, by decide⟩, h.1, h.2.2.2.2 7 c9test (by decide)⟩

end DeepLom
